import Mathlib

/-!
# Verification of the CS687-Capstone behavior/policy engine

Shallow embedding of `src/backend/behavior_model.py` and
`src/backend/ai_engine.py`.  Python floats are modelled as rationals (`ℚ`);
database reads are modelled by passing the fetched documents as explicit
arguments; Python exceptions are modelled with `Except`.
-/

/-- A value found in a document's `value` field.  `num q` is any value that
Python's `float()` accepts (an int, a float, or a numeric string), yielding
`q`; `nonNum` is any present value on which `float()` / `int()` raise
(`ValueError` / `TypeError`). -/
inductive BValue
  | num (q : ℚ)
  | nonNum
  deriving DecidableEq, Repr

/-- A fetched sensordata document, projected to its `value` field
(`{"_id": 0, "value": 1, "ts": 1}`); `value = none` models a document
missing the `value` key (Python `d["value"]` raises `KeyError`). -/
structure Sample where
  value : Option BValue
  deriving DecidableEq, Repr

/-- `float(d["value"])`: `Except.error ()` models the raised
`KeyError`/`ValueError`/`TypeError`. -/
def pyFloat (d : Sample) : Except Unit ℚ :=
  match d.value with
  | none => Except.error ()
  | some (BValue.num q) => Except.ok q
  | some BValue.nonNum => Except.error ()

/-- `int(v)` on a present value: Python truncates numeric floats toward
zero and raises on non-numeric values. -/
def pyInt (v : BValue) : Except Unit ℤ :=
  match v with
  | BValue.num q => Except.ok (Int.tdiv q.num q.den)
  | BValue.nonNum => Except.error ()

/-- `behavior_model.py` lines 28-41, `_values`: the per-document parse loop
run over the fetched documents (the DB query itself is the external
`MetricReader` collaborator).  `try: vals.append(float(d["value"]))
except (ValueError, TypeError, KeyError): continue`. -/
def _values (docs : List Sample) : List ℚ :=
  docs.foldr
    (fun d vals =>
      match pyFloat d with
      | Except.ok v => v :: vals
      | Except.error _ => vals)
    []

/-- `statistics.mean` on a list of floats (the source only calls it on
non-empty lists; on `[]` this total model returns `0`). -/
def pymean (xs : List ℚ) : ℚ := xs.sum / xs.length

/-- `behavior_model.py` lines 4-5: `_clamp(x, lo=0.1, hi=1.0)`. -/
def _clamp (x lo hi : ℚ) : ℚ := max lo (min hi x)

/-- Python 3 `round(q)` to an integer: nearest, ties to even. -/
def pyRound (q : ℚ) : ℤ :=
  if q - Int.floor q = 1 / 2 then
    if 2 ∣ Int.floor q then Int.floor q else Int.floor q + 1
  else round q

/-- Python `round(x, 2)`: round to 2 decimal places, ties to even. -/
def pyRound2 (q : ℚ) : ℚ := (pyRound (q * 100) : ℚ) / 100

/-- A fetched plan document projected to `{"status": 1}` as read by
`_recent_plans`; `status = none` models a document without the key
(`p.get("status")` returns `None`). -/
structure PlanStatusRec where
  status : Option String
  deriving DecidableEq, Repr

/-- `behavior_model.py` lines 44-49, `adherence_score`, as a function of the
plan documents fetched for the window. -/
def adherence_score (plans : List PlanStatusRec) : ℚ :=
  if plans.isEmpty then 0.5
  else pyRound2 ((plans.countP (fun p => p.status = some "Completed") : ℚ) / plans.length)

/-- `behavior_model.py` line 55: `hr_baseline = mean(hr_base_vals) if
hr_base_vals else 75.0`, where `hr_base_vals = _values(user_id, "HR",
hours=24*14)`. -/
def hr_baseline (hrBaseDocs : List Sample) : ℚ :=
  if (_values hrBaseDocs).isEmpty then 75 else pymean (_values hrBaseDocs)

/-- `behavior_model.py` line 56: `sleep_baseline = mean(sleep_base_vals) if
sleep_base_vals else 70.0`. -/
def sleep_baseline (sleepBaseDocs : List Sample) : ℚ :=
  if (_values sleepBaseDocs).isEmpty then 70 else pymean (_values sleepBaseDocs)

/-- `behavior_model.py` line 63: `hr_avg = mean(hr_recent) if hr_recent
else hr_baseline`, with `hr_recent = _values(user_id, "HR", hours=24)`
(line 59). -/
def hr_avg (hrBaseDocs hrRecentDocs : List Sample) : ℚ :=
  if (_values hrRecentDocs).isEmpty then hr_baseline hrBaseDocs
  else pymean (_values hrRecentDocs)

/-- `behavior_model.py` line 64: `sleep_avg = mean(sleep_recent) if
sleep_recent else sleep_baseline`, with `sleep_recent = _values(user_id,
"SleepScore", hours=24*7)[:3]` (line 60). -/
def sleep_avg (sleepBaseDocs sleepRecentDocs : List Sample) : ℚ :=
  if ((_values sleepRecentDocs).take 3).isEmpty then sleep_baseline sleepBaseDocs
  else pymean ((_values sleepRecentDocs).take 3)

/-- `behavior_model.py` lines 67-68: `hr_delta = hr_baseline - hr_avg;
hr_score = _clamp(0.5 + (hr_delta / 20.0))`. -/
def hr_score (hrBaseDocs hrRecentDocs : List Sample) : ℚ :=
  _clamp (0.5 + (hr_baseline hrBaseDocs - hr_avg hrBaseDocs hrRecentDocs) / 20) 0.1 1

/-- `behavior_model.py` line 69: `sleep_score = _clamp(sleep_avg / 100.0)`. -/
def sleep_score (sleepBaseDocs sleepRecentDocs : List Sample) : ℚ :=
  _clamp (sleep_avg sleepBaseDocs sleepRecentDocs / 100) 0.1 1

/-- `behavior_model.py` lines 51-71, `readiness_score`, as a function of the
four document lists fetched by its `_values` calls: the 14-day HR window,
the 14-day SleepScore window, the 24-hour HR window and the 7-day
SleepScore window. -/
def readiness_score (hrBaseDocs sleepBaseDocs hrRecentDocs sleepRecentDocs : List Sample) : ℚ :=
  pyRound2 (0.4 * hr_score hrBaseDocs hrRecentDocs + 0.6 * sleep_score sleepBaseDocs sleepRecentDocs)

/-- `behavior_model.py` lines 78-84: the threshold classifier inside
`next_best_intensity` mapping (readiness, adherence) to the raw tier. -/
def raw_intensity (r a : ℚ) : String :=
  if r > 0.8 ∧ a ≥ 0.6 then "High"
  else if r ≥ 0.6 then "Moderate"
  else "Low"

/-- An element of a plan document's `items` array as read back from the
store; both fields are accessed with `.get`, so either may be absent. -/
structure ItemDoc where
  type : Option String
  intensity : Option String
  deriving DecidableEq, Repr

/-- The most recent plan document projected to `{"items": 1}`; a missing
`items` key is modelled as `[]` (both are falsy in `last.get("items")`). -/
structure LastPlanDoc where
  items : List ItemDoc
  deriving DecidableEq, Repr

/-- `behavior_model.py` lines 87-98: extraction of `last_intensity` from the
most recent plan: `if last and last.get("items"): for it in last["items"]:
if it.get("type") == "Workout": last_intensity = it.get("intensity"); break`. -/
def lastWorkoutIntensity (last : Option LastPlanDoc) : Option String :=
  match last with
  | none => none
  | some p =>
    if p.items.isEmpty then none
    else (p.items.find? (fun it => it.type = some "Workout")).bind (fun it => it.intensity)

/-- `behavior_model.py` lines 99-106: the hysteresis step.  `if
last_intensity:` is Python truthiness (both `None` and `""` skip the
filter); `order.get(x, 1)` defaults unknown tiers to ordinal 1. -/
def hysteresis_step (target : String) (last_intensity : Option String) : String :=
  match last_intensity with
  | none => target
  | some s =>
    if s = "" then target
    else
      let li : ℤ := if s = "Low" then 0 else if s = "Moderate" then 1
                    else if s = "High" then 2 else 1
      let ti : ℤ := if target = "Low" then 0 else if target = "Moderate" then 1
                    else if target = "High" then 2 else 1
      if ti - li > 1 then "Moderate"
      else if li - ti > 1 then "Moderate"
      else target

/-- `behavior_model.py` lines 74-107, `next_best_intensity`, as a function
of the documents its data reads fetch: the four metric windows feeding
`readiness_score`, the recent plans feeding `adherence_score`, and the most
recent plan document feeding the hysteresis step. -/
def next_best_intensity (hrBaseDocs sleepBaseDocs hrRecentDocs sleepRecentDocs : List Sample)
    (plans : List PlanStatusRec) (lastPlan : Option LastPlanDoc) : String :=
  let r := readiness_score hrBaseDocs sleepBaseDocs hrRecentDocs sleepRecentDocs
  let a := adherence_score plans
  hysteresis_step (raw_intensity r a) (lastWorkoutIntensity lastPlan)

/-- The tier ordinals `{"Low": 0, "Moderate": 1, "High": 2}`. -/
def tierOrd (s : String) : ℤ :=
  if s = "Low" then 0 else if s = "Moderate" then 1 else if s = "High" then 2 else 1

/-! ## `src/backend/ai_engine.py` -/

/-- A fully-populated plan item as built by the plan templates in
`generate_plan`. -/
structure PlanItemFull where
  type : String
  intensity : String
  durationMinutes : ℕ
  description : String
  deriving DecidableEq, Repr

/-- Modelled from the spec: `plan_item` is imported from `models.py`, which
is absent from the sources; per the spec's data model a PlanItem is
`{type, intensity, durationMinutes, description}`. -/
def plan_item (t i : String) (dur : ℕ) (desc : String) : PlanItemFull :=
  ⟨t, i, dur, desc⟩

/-- A plan document as built by `generate_plan`. -/
structure PlanDoc where
  userId : String
  items : List PlanItemFull
  date : String
  status : String
  deriving DecidableEq, Repr

/-- Modelled from the spec: `plan_doc` is imported from `models.py`, which
is absent from the sources; per the spec a PlanRecord is
`{userId, date, status, items}` and `generate_plan` passes exactly those
four fields. -/
def plan_doc (user_id : String) (items : List PlanItemFull) (d : String) (status : String) :
    PlanDoc :=
  ⟨user_id, items, d, status⟩

/-- `ai_engine.py` lines 16-21: the "Low" template of the `base` dict. -/
def lowItems : List PlanItemFull :=
  [plan_item "Workout" "Low" 20 "Light mobility + walk",
   plan_item "Habit" "Low" 5 "Hydrate: +1L",
   plan_item "Recovery" "Low" 10 "Stretch + sleep target 8h"]

/-- `ai_engine.py` lines 22-26: the "Moderate" template of the `base` dict. -/
def moderateItems : List PlanItemFull :=
  [plan_item "Workout" "Moderate" 35 "Bodyweight circuit + brisk walk",
   plan_item "Habit" "Low" 5 "2L water + protein target",
   plan_item "Recovery" "Low" 10 "Cooldown + mindfulness 5m"]

/-- `ai_engine.py` lines 27-31: the "High" template of the `base` dict. -/
def highItems : List PlanItemFull :=
  [plan_item "Workout" "High" 45 "Intervals + strength",
   plan_item "Habit" "Low" 5 "Macros check + 2.5L water",
   plan_item "Recovery" "Low" 15 "Mobility + sleep hygiene"]

/-- `ai_engine.py` lines 15-31: the `base` dict. -/
def base : List (String × List PlanItemFull) :=
  [("Low", lowItems), ("Moderate", moderateItems), ("High", highItems)]

/-- Python `dict.get(k, default)` on an association-list model of a dict. -/
def dict_get (d : List (String × List PlanItemFull)) (k : String)
    (dflt : List PlanItemFull) : List PlanItemFull :=
  match d.find? (fun p => p.1 = k) with
  | some p => p.2
  | none => dflt

/-- The outcome of the call `behavior_model.next_best_intensity(user_id)`
inside `generate_plan`: either it returns a value (`some s` a string,
`none` modelling Python `None`) or it raises. -/
inductive NbiResult
  | ok (v : Option String)
  | exn
  deriving DecidableEq, Repr

/-- `ai_engine.py` lines 9-12: `try: intensity =
behavior_model.next_best_intensity(user_id) or "Moderate" except Exception:
intensity = "Moderate"`.  `or` replaces a falsy result (`None` or `""`). -/
def plan_intensity (call : NbiResult) : String :=
  match call with
  | NbiResult.exn => "Moderate"
  | NbiResult.ok none => "Moderate"
  | NbiResult.ok (some s) => if s = "" then "Moderate" else s

/-- The single `db.plans.update_one({"userId": .., "date": ..}, {"$set":
plan}, upsert=True)` call issued by `generate_plan`. -/
structure UpsertOp where
  filterUserId : String
  filterDate : String
  setDoc : PlanDoc
  deriving DecidableEq, Repr

/-- What `generate_plan` produces: the returned plan and the one upsert it
issued. -/
structure GeneratePlanResult where
  plan : PlanDoc
  upsert : UpsertOp
  deriving DecidableEq, Repr

/-- `ai_engine.py` lines 5-50, `generate_plan`, as a function of the user
id, today's date string, and the outcome of its single
`next_best_intensity` call (made exactly once, with no retry). -/
def generate_plan (user_id : String) (today : String) (call : NbiResult) : GeneratePlanResult :=
  let intensity := plan_intensity call
  let items := dict_get base intensity moderateItems
  let plan := plan_doc user_id items today "Proposed"
  { plan := plan
    upsert := { filterUserId := user_id, filterDate := plan.date, setDoc := plan } }

/-- `int` applied to each value of a list in order; the first failure
aborts with the raised exception, as in a Python list comprehension. -/
def intList : List BValue → Except Unit (List ℤ)
  | [] => Except.ok []
  | v :: vs =>
    match pyInt v with
    | Except.error e => Except.error e
    | Except.ok n =>
      match intList vs with
      | Except.error e => Except.error e
      | Except.ok ns => Except.ok (n :: ns)

/-- `ai_engine.py` line 58: `recent_steps = [int(m["value"]) for m in
cursor if "value" in m]` — the step-value extraction in `generate_nudges`
over the fetched documents.  The comprehension skips documents without a
`value` key but calls `int` on every present value; `Except.error` models
the `ValueError`/`TypeError` that escapes `generate_nudges`. -/
def nudge_recent_steps (docs : List Sample) : Except Unit (List ℤ) :=
  intList (docs.filterMap (fun m => m.value))

/-! ## Helper lemmas -/

lemma pyRound_intCast (n : ℤ) : pyRound (n : ℚ) = n := by
  unfold pyRound
  rw [Int.floor_intCast]
  norm_num [round_intCast]

lemma pyRound2_div100 (n : ℤ) : pyRound2 ((n : ℚ) / 100) = (n : ℚ) / 100 := by
  have h : ((n : ℚ) / 100) * 100 = (n : ℚ) := by field_simp
  unfold pyRound2
  rw [h, pyRound_intCast]

lemma raw_intensity_cases (r a : ℚ) :
    raw_intensity r a = "Low" ∨ raw_intensity r a = "Moderate" ∨ raw_intensity r a = "High" := by
  unfold raw_intensity
  split
  · exact Or.inr (Or.inr rfl)
  · split
    · exact Or.inr (Or.inl rfl)
    · exact Or.inl rfl

/-! ## Theorems -/

/-- C1: the intensity classifier returns High iff `r > 0.8 ∧ a ≥ 0.6`,
otherwise Moderate iff `r ≥ 0.6`, otherwise Low; with the three concrete
examples `(0.85, 0.7) ↦ High`, `(0.85, 0.3) ↦ Moderate`,
`(0.5, 0.9) ↦ Low`. -/
theorem C1_classifier_thresholds (r a : ℚ) :
    (raw_intensity r a = "High" ↔ (r > 0.8 ∧ a ≥ 0.6))
    ∧ (¬(r > 0.8 ∧ a ≥ 0.6) → (raw_intensity r a = "Moderate" ↔ r ≥ 0.6))
    ∧ (¬(r > 0.8 ∧ a ≥ 0.6) → ¬(r ≥ 0.6) → raw_intensity r a = "Low")
    ∧ raw_intensity 0.85 0.7 = "High"
    ∧ raw_intensity 0.85 0.3 = "Moderate"
    ∧ raw_intensity 0.5 0.9 = "Low" := by
  refine ⟨?_, ?_, ?_, by norm_num [raw_intensity], by norm_num [raw_intensity],
    by norm_num [raw_intensity]⟩
  · by_cases h1 : r > 0.8 ∧ a ≥ 0.6
    · simp [raw_intensity, h1]
    · by_cases h2 : r ≥ 0.6 <;> simp [raw_intensity, h1, h2]
  · intro h1
    by_cases h2 : r ≥ 0.6 <;> simp [raw_intensity, h1, h2]
  · intro h1 h2
    simp [raw_intensity, h1, h2]

theorem C1_classifier_thresholds_witness :
    (¬((0.85 : ℚ) > 0.8 ∧ (0.3 : ℚ) ≥ 0.6)) ∧ raw_intensity 0.85 0.3 = "Moderate" :=
  ⟨by norm_num,
   ((C1_classifier_thresholds 0.85 0.3).2.1 (by norm_num)).mpr (by norm_num)⟩

/-- C2: the hysteresis step passes the raw tier through when no last
intensity exists; with a last intensity among the three tiers it yields
Moderate exactly when the ordinal gap exceeds 1 in either direction and the
raw tier otherwise; with the four concrete examples from the spec. -/
theorem C2_hysteresis_rule (target : String) (last : Option String)
    (ht : target ∈ ["Low", "Moderate", "High"]) :
    (last = none → hysteresis_step target last = target)
    ∧ (∀ l, l ∈ ["Low", "Moderate", "High"] → last = some l →
        hysteresis_step target last =
          (if tierOrd target - tierOrd l > 1 ∨ tierOrd l - tierOrd target > 1
           then "Moderate" else target))
    ∧ hysteresis_step "High" (some "Low") = "Moderate"
    ∧ hysteresis_step "Moderate" (some "Low") = "Moderate"
    ∧ hysteresis_step "Low" (some "High") = "Moderate"
    ∧ hysteresis_step "High" none = "High" := by
  refine ⟨fun h => by subst h; rfl, ?_, by decide, by decide, by decide, by decide⟩
  intro l hl hlast
  subst hlast
  simp only [List.mem_cons, List.not_mem_nil, or_false] at ht hl
  rcases ht with rfl | rfl | rfl <;> rcases hl with rfl | rfl | rfl <;> decide

theorem C2_hysteresis_rule_witness :
    ("High" ∈ ["Low", "Moderate", "High"]) ∧ ("Low" ∈ ["Low", "Moderate", "High"])
    ∧ hysteresis_step "High" (some "Low") =
        (if tierOrd "High" - tierOrd "Low" > 1 ∨ tierOrd "Low" - tierOrd "High" > 1
         then "Moderate" else "High") :=
  ⟨by decide, by decide,
   (C2_hysteresis_rule "High" (some "Low") (by decide)).2.1 "Low" (by decide) rfl⟩

/-- C4: `adherence_score` returns 0.5 on an empty window, otherwise the
completed-over-total ratio rounded to 2 decimals; 3 Completed out of 5
records yields 0.6.  The embedding is a total function: absent data is a
defined result, not an error. -/
theorem C4_adherence_ratio (plans : List PlanStatusRec) :
    (plans = [] → adherence_score plans = 0.5)
    ∧ (plans ≠ [] → adherence_score plans =
        pyRound2 ((plans.countP (fun p => p.status = some "Completed") : ℚ) / plans.length))
    ∧ adherence_score
        [⟨some "Completed"⟩, ⟨some "Completed"⟩, ⟨some "Completed"⟩,
         ⟨some "Proposed"⟩, ⟨none⟩] = 0.6 := by
  refine ⟨fun h => by subst h; rfl, fun h => ?_, ?_⟩
  · rw [adherence_score, if_neg (by simpa [List.isEmpty_iff] using h)]
  · have hc : ([⟨some "Completed"⟩, ⟨some "Completed"⟩, ⟨some "Completed"⟩,
        ⟨some "Proposed"⟩, ⟨none⟩] : List PlanStatusRec).countP
          (fun p => p.status = some "Completed") = 3 := by decide
    rw [adherence_score, if_neg (by decide), hc]
    have h60 : ((3 : ℕ) : ℚ) / (([⟨some "Completed"⟩, ⟨some "Completed"⟩, ⟨some "Completed"⟩,
        ⟨some "Proposed"⟩, ⟨none⟩] : List PlanStatusRec).length : ℚ) = (60 : ℤ) / 100 := by
      norm_num
    rw [h60, pyRound2_div100]
    norm_num

theorem C4_adherence_ratio_witness :
    (([⟨some "Completed"⟩, ⟨some "Proposed"⟩] : List PlanStatusRec) ≠ [])
    ∧ adherence_score [⟨some "Completed"⟩, ⟨some "Proposed"⟩] =
        pyRound2 ((([⟨some "Completed"⟩, ⟨some "Proposed"⟩] : List PlanStatusRec).countP
          (fun p => p.status = some "Completed") : ℚ) /
          ([⟨some "Completed"⟩, ⟨some "Proposed"⟩] : List PlanStatusRec).length) :=
  ⟨by decide,
   (C4_adherence_ratio [⟨some "Completed"⟩, ⟨some "Proposed"⟩]).2.1 (by decide)⟩

/-- C3: whenever a last Workout intensity among the three tiers exists, the
tier returned by `next_best_intensity` is within one ordinal step of it;
with no last Workout intensity the raw classifier tier is returned
unchanged. -/
theorem C3_one_step_invariant (hb sb hr sr : List Sample) (plans : List PlanStatusRec)
    (lastPlan : Option LastPlanDoc) :
    (∀ t, t ∈ ["Low", "Moderate", "High"] → lastWorkoutIntensity lastPlan = some t →
        |tierOrd (next_best_intensity hb sb hr sr plans lastPlan) - tierOrd t| ≤ 1)
    ∧ (lastWorkoutIntensity lastPlan = none →
        next_best_intensity hb sb hr sr plans lastPlan =
          raw_intensity (readiness_score hb sb hr sr) (adherence_score plans)) := by
  have hn : next_best_intensity hb sb hr sr plans lastPlan =
      hysteresis_step (raw_intensity (readiness_score hb sb hr sr) (adherence_score plans))
        (lastWorkoutIntensity lastPlan) := rfl
  constructor
  · intro t ht hlast
    rw [hn, hlast]
    simp only [List.mem_cons, List.not_mem_nil, or_false] at ht
    rcases raw_intensity_cases (readiness_score hb sb hr sr) (adherence_score plans) with
        h | h | h <;> rw [h] <;> (rcases ht with rfl | rfl | rfl <;> decide)
  · intro hlast
    rw [hn, hlast]
    rfl

theorem C3_one_step_invariant_witness :
    ("Low" ∈ ["Low", "Moderate", "High"])
    ∧ lastWorkoutIntensity (some ⟨[⟨some "Workout", some "Low"⟩]⟩) = some "Low"
    ∧ |tierOrd (next_best_intensity [] [] [] [] []
        (some ⟨[⟨some "Workout", some "Low"⟩]⟩)) - tierOrd "Low"| ≤ 1 :=
  ⟨by decide, by decide,
   (C3_one_step_invariant [] [] [] [] [] (some ⟨[⟨some "Workout", some "Low"⟩]⟩)).1
     "Low" (by decide) (by decide)⟩

/-- C7 counterexample: the claim says every consumer of metric values,
including the step extraction in `generate_nudges`, silently skips a sample
whose value cannot be parsed as a number and never raises; but on a fetched
step document carrying a non-numeric value the comprehension
`[int(m["value"]) for m in cursor if "value" in m]` raises. -/
theorem C7_counterexample_nudges_raise :
    nudge_recent_steps [⟨some BValue.nonNum⟩] = Except.error () := rfl

/-- C7 (amended): `_values` silently skips each sample whose value is
missing or non-numeric and never raises, while the step extraction in
`generate_nudges` skips samples whose `value` field is missing but raises
on a present value that cannot be parsed as a number. -/
theorem C7_amended_skip_behavior :
    (∀ (d : Sample) (docs : List Sample), pyFloat d = Except.error () →
        _values (d :: docs) = _values docs)
    ∧ (∀ (d : Sample) (docs : List Sample) (q : ℚ), pyFloat d = Except.ok q →
        _values (d :: docs) = q :: _values docs)
    ∧ (∀ (d : Sample) (docs : List Sample), d.value = none →
        nudge_recent_steps (d :: docs) = nudge_recent_steps docs)
    ∧ (∀ (d : Sample) (docs : List Sample), d.value = some BValue.nonNum →
        nudge_recent_steps (d :: docs) = Except.error ()) := by
  refine ⟨?_, ?_, ?_, ?_⟩
  · intro d docs h
    show (match pyFloat d with
          | Except.ok v => v :: _values docs
          | Except.error _ => _values docs) = _values docs
    rw [h]
  · intro d docs q h
    show (match pyFloat d with
          | Except.ok v => v :: _values docs
          | Except.error _ => _values docs) = q :: _values docs
    rw [h]
  · intro d docs h
    unfold nudge_recent_steps
    rw [List.filterMap_cons, h]
  · intro d docs h
    unfold nudge_recent_steps
    rw [List.filterMap_cons, h]
    rfl

theorem C7_amended_skip_behavior_witness :
    pyFloat ⟨none⟩ = Except.error ()
    ∧ _values [⟨none⟩, ⟨some (BValue.num 80)⟩] = _values [⟨some (BValue.num 80)⟩] :=
  ⟨rfl, C7_amended_skip_behavior.1 ⟨none⟩ [⟨some (BValue.num 80)⟩] rfl⟩

/-- C8: the baselines used by `readiness_score` equal the arithmetic mean
of the numeric samples fetched for the trailing 14-day window, and equal
the fixed fallbacks 75.0 (HR) and 70.0 (SleepScore) when no numeric sample
exists in that window. -/
theorem C8_baseline_mean_fallback (hb sb : List Sample) :
    (_values hb ≠ [] → hr_baseline hb = (_values hb).sum / ((_values hb).length : ℚ))
    ∧ (_values hb = [] → hr_baseline hb = 75)
    ∧ (_values sb ≠ [] → sleep_baseline sb = (_values sb).sum / ((_values sb).length : ℚ))
    ∧ (_values sb = [] → sleep_baseline sb = 70) := by
  refine ⟨fun h => ?_, fun h => ?_, fun h => ?_, fun h => ?_⟩ <;>
    simp [hr_baseline, sleep_baseline, pymean, List.isEmpty_iff, h]

theorem C8_baseline_mean_fallback_witness :
    (_values [⟨some (BValue.num 80)⟩] ≠ [])
    ∧ hr_baseline [⟨some (BValue.num 80)⟩] =
        (_values [⟨some (BValue.num 80)⟩]).sum / ((_values [⟨some (BValue.num 80)⟩]).length : ℚ)
    ∧ (_values [⟨some BValue.nonNum⟩] = [])
    ∧ sleep_baseline [⟨some BValue.nonNum⟩] = 70 :=
  ⟨by simp [_values, pyFloat],
   (C8_baseline_mean_fallback [⟨some (BValue.num 80)⟩] []).1 (by simp [_values, pyFloat]),
   by simp [_values, pyFloat],
   (C8_baseline_mean_fallback [] [⟨some BValue.nonNum⟩]).2.2.2 (by simp [_values, pyFloat])⟩

/-- C9: when the `next_best_intensity` call raises, `generate_plan` catches
the exception and substitutes the fixed neutral tier "Moderate", then still
builds today's plan from the Moderate template and issues its single
upsert; the model consumes exactly one call outcome, so no retry occurs. -/
theorem C9_exception_fallback (u today : String) :
    plan_intensity NbiResult.exn = "Moderate"
    ∧ (generate_plan u today NbiResult.exn).plan = plan_doc u moderateItems today "Proposed"
    ∧ (generate_plan u today NbiResult.exn).upsert =
        ⟨u, today, plan_doc u moderateItems today "Proposed"⟩ :=
  ⟨rfl, rfl, rfl⟩

/-- C10: whatever the `next_best_intensity` call returns, the generated
plan's items are one of the three fixed templates; a falsy result (`None`
or `""`) is replaced by the string "Moderate", and any truthy string
outside the three tiers selects the Moderate template via
`base.get(intensity, base["Moderate"])`. -/
theorem C10_template_totality (u today : String) (call : NbiResult) :
    ((generate_plan u today call).plan.items = lowItems ∨
     (generate_plan u today call).plan.items = moderateItems ∨
     (generate_plan u today call).plan.items = highItems)
    ∧ (generate_plan u today (NbiResult.ok none)).plan.items = moderateItems
    ∧ (generate_plan u today (NbiResult.ok (some ""))).plan.items = moderateItems
    ∧ (∀ s : String, s ≠ "" → s ∉ ["Low", "Moderate", "High"] →
        (generate_plan u today (NbiResult.ok (some s))).plan.items = moderateItems) := by
  have hout : ∀ i : String, i ≠ "Low" → i ≠ "Moderate" → i ≠ "High" →
      dict_get base i moderateItems = moderateItems := by
    intro i h1 h2 h3
    simp [dict_get, base, List.find?, Ne.symm h1, Ne.symm h2, Ne.symm h3]
  have hcases : ∀ i : String, dict_get base i moderateItems = lowItems ∨
      dict_get base i moderateItems = moderateItems ∨
      dict_get base i moderateItems = highItems := by
    intro i
    by_cases h1 : i = "Low"
    · subst h1; exact Or.inl rfl
    by_cases h2 : i = "Moderate"
    · subst h2; exact Or.inr (Or.inl rfl)
    by_cases h3 : i = "High"
    · subst h3; exact Or.inr (Or.inr rfl)
    exact Or.inr (Or.inl (hout i h1 h2 h3))
  refine ⟨hcases _, rfl, rfl, ?_⟩
  intro s hne hmem
  simp only [List.mem_cons, List.not_mem_nil, or_false, not_or] at hmem
  show dict_get base (plan_intensity (NbiResult.ok (some s))) moderateItems = moderateItems
  simp only [plan_intensity, if_neg hne]
  exact hout s hmem.1 hmem.2.1 hmem.2.2

theorem C10_template_totality_witness :
    (("Extreme" : String) ≠ "")
    ∧ (("Extreme" : String) ∉ ["Low", "Moderate", "High"])
    ∧ (generate_plan "u1" "2026-01-01" (NbiResult.ok (some "Extreme"))).plan.items
        = moderateItems :=
  ⟨by decide, by decide,
   (C10_template_totality "u1" "2026-01-01" (NbiResult.ok (some "Extreme"))).2.2.2
     "Extreme" (by decide) (by decide)⟩

lemma _clamp_bounds (x lo hi : ℚ) (h : lo ≤ hi) :
    lo ≤ _clamp x lo hi ∧ _clamp x lo hi ≤ hi :=
  ⟨le_max_left _ _, max_le h (min_le_left _ _)⟩

lemma pyRound_ge_floor (q : ℚ) : Int.floor q ≤ pyRound q := by
  unfold pyRound
  split
  · split
    · exact le_refl _
    · exact le_of_lt (lt_add_one _)
  · rw [round_eq]
    exact Int.floor_le_floor (by linarith)

lemma pyRound_le_ceil (q : ℚ) : pyRound q ≤ Int.ceil q := by
  unfold pyRound
  split
  · rename_i hhalf
    have h1 : (Int.floor q : ℚ) < q := by linarith
    have h2 : q ≤ (Int.ceil q : ℚ) := Int.le_ceil q
    have h3 : Int.floor q < Int.ceil q := by exact_mod_cast lt_of_lt_of_le h1 h2
    split
    · exact le_of_lt h3
    · omega
  · rw [round_eq]
    by_contra hlt
    push_neg at hlt
    have h1 : (Int.ceil q + 1 : ℤ) ≤ Int.floor (q + 1 / 2) := by omega
    have h2 : ((Int.ceil q + 1 : ℤ) : ℚ) ≤ q + 1 / 2 := le_trans (by exact_mod_cast h1)
      (Int.floor_le _)
    have h3 : q ≤ (Int.ceil q : ℚ) := Int.le_ceil q
    push_cast at h2
    linarith

lemma pyRound2_bounds (x : ℚ) (h1 : 1 / 10 ≤ x) (h2 : x ≤ 1) :
    1 / 10 ≤ pyRound2 x ∧ pyRound2 x ≤ 1 := by
  have hf : (10 : ℤ) ≤ Int.floor (x * 100) := Int.le_floor.mpr (by push_cast; linarith)
  have hc : Int.ceil (x * 100) ≤ (100 : ℤ) := Int.ceil_le.mpr (by push_cast; linarith)
  have hp1 : (10 : ℤ) ≤ pyRound (x * 100) := le_trans hf (pyRound_ge_floor _)
  have hp2 : pyRound (x * 100) ≤ 100 := le_trans (pyRound_le_ceil _) hc
  have hq1 : (10 : ℚ) ≤ (pyRound (x * 100) : ℚ) := by exact_mod_cast hp1
  have hq2 : ((pyRound (x * 100) : ℚ)) ≤ 100 := by exact_mod_cast hp2
  unfold pyRound2
  constructor <;> linarith

/-- C5: `readiness_score` combines the clamped HR delta sub-score and the
clamped sleep sub-score as `round(0.4*hrScore + 0.6*sleepScore, 2)`; an
empty recent HR window makes the recent HR equal the HR baseline and the
HR sub-score exactly 0.5, and an empty recent sleep window makes the
recent sleep average equal the sleep baseline, the sleep sub-score being
`clamp(baseline/100, 0.1, 1.0)`. -/
theorem C5_readiness_formula (hb sb hr sr : List Sample) :
    readiness_score hb sb hr sr =
      pyRound2 (0.4 * _clamp (0.5 + (hr_baseline hb - hr_avg hb hr) / 20) 0.1 1
              + 0.6 * _clamp (sleep_avg sb sr / 100) 0.1 1)
    ∧ (_values hr = [] → hr_avg hb hr = hr_baseline hb ∧ hr_score hb hr = 0.5)
    ∧ (_values sr = [] → sleep_avg sb sr = sleep_baseline sb
        ∧ sleep_score sb sr = _clamp (sleep_baseline sb / 100) 0.1 1) := by
  refine ⟨rfl, fun h => ?_, fun h => ?_⟩
  · have h1 : hr_avg hb hr = hr_baseline hb := by simp [hr_avg, h]
    refine ⟨h1, ?_⟩
    rw [hr_score, h1]
    norm_num [_clamp]
  · have h1 : sleep_avg sb sr = sleep_baseline sb := by simp [sleep_avg, h]
    exact ⟨h1, by rw [sleep_score, h1]⟩

theorem C5_readiness_formula_witness :
    (_values ([] : List Sample) = [])
    ∧ hr_avg [] [] = hr_baseline [] ∧ hr_score [] [] = 0.5 :=
  ⟨rfl, (C5_readiness_formula [] [] [] []).2.1 rfl⟩

/-- C6: for every possible set of fetched samples — empty histories and
histories containing missing or non-numeric values included — the value of
`readiness_score` lies in the closed interval [0.1, 1.0]. -/
theorem C6_readiness_range (hb sb hr sr : List Sample) :
    (0.1 : ℚ) ≤ readiness_score hb sb hr sr ∧ readiness_score hb sb hr sr ≤ 1 := by
  have hh : (0.1 : ℚ) ≤ hr_score hb hr ∧ hr_score hb hr ≤ 1 := by
    unfold hr_score
    exact _clamp_bounds _ _ _ (by norm_num)
  have hs : (0.1 : ℚ) ≤ sleep_score sb sr ∧ sleep_score sb sr ≤ 1 := by
    unfold sleep_score
    exact _clamp_bounds _ _ _ (by norm_num)
  have h1 : 1 / 10 ≤ 0.4 * hr_score hb hr + 0.6 * sleep_score sb sr := by
    nlinarith [hh.1, hs.1]
  have h2 : 0.4 * hr_score hb hr + 0.6 * sleep_score sb sr ≤ 1 := by
    nlinarith [hh.2, hs.2]
  unfold readiness_score
  have hb2 := pyRound2_bounds _ h1 h2
  constructor
  · linarith [hb2.1]
  · exact hb2.2
